import Mathlib

/-!
Shallow embedding of the NNAPI 1.3 VTS generated-test harness
(`neuralnetworks/1.3/vts/functional/GeneratedTestHarness.cpp`).

The harness translates an abstract test model into the wire-level `Model`,
builds a `Request`, drives one of three execution protocols, and validates
the returned (status, output shapes, timing) triple under one of three
output-shape policies.  Pure computations are translated directly; the
backend (driver) is treated as an oracle supplying an `ExecutionOutcome`,
and gtest assertion/skip effects are reified in an `Evaluation` record.

Machine integers are modelled as `Nat`; the `static_cast<uint32_t>` casts
that the translator applies to its `size_t` cursors are modelled explicitly
as reduction modulo 2^32 (`u32`).
-/

/-! ## Abstract test model (test_helper types) -/

/-- Operand lifetimes, mirroring `TestOperandLifeTime` (constructor-wise the
`static_cast` to the HAL `OperandLifeTime` is the identity on names). -/
inductive TestOperandLifeTime
  | TEMPORARY_VARIABLE
  | SUBGRAPH_INPUT
  | SUBGRAPH_OUTPUT
  | CONSTANT_COPY
  | CONSTANT_REFERENCE
  | NO_VALUE
deriving DecidableEq, Repr

/-- Operand types; only `TENSOR_QUANT8_SYMM_PER_CHANNEL` is distinguished by
the translator (per-channel quant params are attached only to it). -/
inductive TestOperandType
  | TENSOR_FLOAT32
  | TENSOR_INT32
  | TENSOR_QUANT8_ASYMM
  | TENSOR_QUANT8_ASYMM_SIGNED
  | TENSOR_QUANT8_SYMM_PER_CHANNEL
  | TENSOR_FLOAT16
deriving DecidableEq, Repr

/-- Per-channel quantization parameters.  Scales are 32-bit float values;
their numeric semantics are irrelevant here, so each is kept as its opaque
bit pattern. -/
structure TestSymmPerChannelQuantParams where
  scales : List Nat
  channelDim : Nat
deriving DecidableEq, Repr

/-- One abstract operand.  `scale` is a float kept as an opaque bit
pattern; `data` is the constant byte buffer (empty for computed operands). -/
structure TestOperand where
  type : TestOperandType
  dimensions : List Nat
  numberOfConsumers : Nat
  scale : Nat
  zeroPoint : Int
  lifetime : TestOperandLifeTime
  channelQuant : TestSymmPerChannelQuantParams
  data : List Nat
deriving DecidableEq, Repr

/-- One abstract operation: opcode kept as a plain numeral. -/
structure TestOperation where
  type : Nat
  inputs : List Nat
  outputs : List Nat
deriving DecidableEq, Repr

/-- The abstract test model.  `hasQuant8CoupledOperands` — Modelled from the
spec: the "coupled-quantization discoverability predicate" of the
AbstractModel (the computing method lives in `TestHarness.h`, which is not
part of this repository snapshot), carried here as a stored flag. -/
structure TestModel where
  operands : List TestOperand
  operations : List TestOperation
  inputIndexes : List Nat
  outputIndexes : List Nat
  isRelaxed : Bool
  expectFailure : Bool
  hasQuant8CoupledOperands : Bool
deriving DecidableEq, Repr

def defaultTestOperand : TestOperand :=
  { type := TestOperandType.TENSOR_FLOAT32, dimensions := [], numberOfConsumers := 0,
    scale := 0, zeroPoint := 0, lifetime := TestOperandLifeTime.TEMPORARY_VARIABLE,
    channelQuant := ⟨[], 0⟩, data := [] }

/-! ## Wire-level model (HAL 1.3 types) -/

/-- `V1_0::DataLocation`: all three fields are `uint32_t`. -/
structure DataLocation where
  poolIndex : Nat
  offset : Nat
  length : Nat
deriving DecidableEq, Repr

/-- `Operand::ExtraParams`: either absent or per-channel quant params. -/
inductive OperandExtraParams
  | none
  | channelQuant (scales : List Nat) (channelDim : Nat)
deriving DecidableEq, Repr

/-- Wire-level operand produced by the translator. -/
structure Operand where
  type : TestOperandType
  dimensions : List Nat
  numberOfConsumers : Nat
  scale : Nat
  zeroPoint : Int
  lifetime : TestOperandLifeTime
  location : DataLocation
  extraParams : OperandExtraParams
deriving DecidableEq, Repr

/-- Wire-level operation (indices copied verbatim). -/
structure Operation where
  type : Nat
  inputs : List Nat
  outputs : List Nat
deriving DecidableEq, Repr

/-- Wire-level model.  `pools` holds the byte content of the shared
constant-reference pool (one entry when constant-reference data exists,
otherwise empty), matching `hidl_vec<hidl_memory> pools`. -/
structure Model where
  operands : List Operand
  operations : List Operation
  inputIndexes : List Nat
  outputIndexes : List Nat
  operandValues : List Nat
  pools : List (List Nat)
  relaxComputationFloat32toFloat16 : Bool
deriving DecidableEq, Repr

def defaultOperand : Operand :=
  { type := TestOperandType.TENSOR_FLOAT32, dimensions := [], numberOfConsumers := 0,
    scale := 0, zeroPoint := 0, lifetime := TestOperandLifeTime.TEMPORARY_VARIABLE,
    location := ⟨0, 0, 0⟩, extraParams := OperandExtraParams.none }

/-! ## The model translator (`createModel`) -/

/-- `static_cast<uint32_t>`. -/
def u32 (n : Nat) : Nat := n % 2 ^ 32

/-- Modelled from the spec: `TestBuffer::alignedSize` lives in
`TestHarness.h`, which is not part of this repository snapshot.  Per §4.1
the cursor advances by the operand size rounded up to an alignment
boundary; the boundary is `alignof(double) = 8` bytes. -/
def kAlignment : Nat := 8

/-- Size rounded up to the next multiple of `kAlignment`. -/
def alignedSize (size : Nat) : Nat := (size + kAlignment - 1) / kAlignment * kAlignment

/-- First loop of `createModel`: walk the operands in index order keeping
the two running cursors `constCopySize` and `constRefSize` (both `size_t`),
emitting one `DataLocation` per operand.  Constant-copy and
constant-reference operands get `{0, u32 cursor, u32 data.size}` (offset and
length pass through `static_cast<uint32_t>`); every other lifetime gets the
zero-initialized `DataLocation loc = {}`.  Returns the locations and the
final cursor values. -/
def computeLocations : List TestOperand → Nat → Nat → List DataLocation × Nat × Nat
  | [], constCopySize, constRefSize => ([], constCopySize, constRefSize)
  | op :: rest, constCopySize, constRefSize =>
    if op.lifetime = TestOperandLifeTime.CONSTANT_COPY then
      let loc : DataLocation := ⟨0, u32 constCopySize, u32 op.data.length⟩
      let r := computeLocations rest (constCopySize + alignedSize op.data.length) constRefSize
      (loc :: r.1, r.2)
    else if op.lifetime = TestOperandLifeTime.CONSTANT_REFERENCE then
      let loc : DataLocation := ⟨0, u32 constRefSize, u32 op.data.length⟩
      let r := computeLocations rest constCopySize (constRefSize + alignedSize op.data.length)
      (loc :: r.1, r.2)
    else
      let r := computeLocations rest constCopySize constRefSize
      (⟨0, 0, 0⟩ :: r.1, r.2)

/-- Body of the first loop of `createModel` building `operands[i]` from the
abstract operand and its computed location: fields copied verbatim, the
enum casts being constructor-preserving, and per-channel quant params
attached only to `TENSOR_QUANT8_SYMM_PER_CHANNEL` operands. -/
def mkOperand (op : TestOperand) (loc : DataLocation) : Operand :=
  { type := op.type, dimensions := op.dimensions, numberOfConsumers := op.numberOfConsumers,
    scale := op.scale, zeroPoint := op.zeroPoint, lifetime := op.lifetime, location := loc,
    extraParams :=
      if op.type = TestOperandType.TENSOR_QUANT8_SYMM_PER_CHANNEL then
        OperandExtraParams.channelQuant op.channelQuant.scales op.channelQuant.channelDim
      else OperandExtraParams.none }

/-- `std::copy(begin, end, base + offset)` over a byte store modelled as a
function from addresses to bytes. -/
def writeMem (mem : Nat → Nat) (base : Nat) (data : List Nat) : Nat → Nat :=
  fun x => if base ≤ x ∧ x < base + data.length then data.getD (x - base) 0 else mem x

/-- The constant-loading loops of `createModel`: for each operand of the
given lifetime, copy its data bytes to `base + location.offset` in the
destination store (`operandValues.data()` for constant copies, the mapped
shared-memory pointer for constant references). -/
def writeConstants (lt : TestOperandLifeTime) (base : Nat) :
    List (TestOperand × DataLocation) → (Nat → Nat) → Nat → Nat
  | [], mem => mem
  | (op, loc) :: rest, mem =>
    if op.lifetime = lt then
      writeConstants lt base rest (writeMem mem (base + loc.offset) op.data)
    else
      writeConstants lt base rest mem

/-- `createModel(testModel)`.  `addr` models the virtual address returned by
`mapMemory` for the shared pool, an environment value that varies between
runs; the freshly allocated shared memory and the value-initialized
`hidl_vec<uint8_t> operandValues(constCopySize)` start zero-filled.  Pool
allocation is assumed to succeed (an allocation failure is a fatal
harness-environment `CHECK`, aborting the test). -/
def createModel (addr : Nat) (testModel : TestModel) : Model :=
  let r := computeLocations testModel.operands 0 0
  let locs := r.1
  let constCopySize := r.2.1
  let constRefSize := r.2.2
  let operands := List.zipWith mkOperand testModel.operands locs
  let operations := testModel.operations.map
    (fun op => { type := op.type, inputs := op.inputs, outputs := op.outputs : Operation })
  let pairs := testModel.operands.zip locs
  let copyMem := writeConstants TestOperandLifeTime.CONSTANT_COPY 0 pairs (fun _ => 0)
  let operandValues := (List.range constCopySize).map copyMem
  let pools :=
    if 0 < constRefSize then
      let refMem := writeConstants TestOperandLifeTime.CONSTANT_REFERENCE addr pairs (fun _ => 0)
      [(List.range constRefSize).map (fun i => refMem (addr + i))]
    else []
  { operands := operands, operations := operations,
    inputIndexes := testModel.inputIndexes, outputIndexes := testModel.outputIndexes,
    operandValues := operandValues, pools := pools,
    relaxComputationFloat32toFloat16 := testModel.isRelaxed }

/-- The location the translator assigned to operand `i`. -/
def operandLoc (addr : Nat) (tm : TestModel) (i : Nat) : DataLocation :=
  ((createModel addr tm).operands.getD i defaultOperand).location

/-- Weight of one operand towards the cursor of storage class `lt`. -/
def opWeight (lt : TestOperandLifeTime) (op : TestOperand) : Nat :=
  if op.lifetime = lt then alignedSize op.data.length else 0

/-- Total aligned byte size of the constants of storage class `lt`
(the final value of the corresponding cursor). -/
def constTotal (lt : TestOperandLifeTime) (ops : List TestOperand) : Nat :=
  (ops.map (opWeight lt)).sum

/-- The two constant storage classes. -/
def isConstantLifetime (lt : TestOperandLifeTime) : Bool :=
  lt = TestOperandLifeTime.CONSTANT_COPY ∨ lt = TestOperandLifeTime.CONSTANT_REFERENCE

/-- Two half-open byte ranges `[a, a+la)` and `[b, b+lb)` intersect. -/
def rangesOverlap (a la b lb : Nat) : Prop :=
  ∃ x, (a ≤ x ∧ x < a + la) ∧ (b ≤ x ∧ x < b + lb)

/-! ## Execution drivers and outcomes -/

/-- `V1_0::ErrorStatus`. -/
inductive ErrorStatus
  | NONE
  | DEVICE_UNAVAILABLE
  | GENERAL_FAILURE
  | OUTPUT_INSUFFICIENT_SIZE
  | INVALID_ARGUMENT
deriving DecidableEq, Repr

/-- The three interchangeable execution protocols. -/
inductive Executor
  | ASYNC
  | SYNC
  | BURST
deriving DecidableEq, Repr

/-- `V1_2::MeasureTiming`. -/
inductive MeasureTiming
  | NO
  | YES
deriving DecidableEq, Repr

/-- The three output-shape policies. -/
inductive OutputType
  | FULLY_SPECIFIED
  | UNSPECIFIED
  | INSUFFICIENT
deriving DecidableEq, Repr

/-- One point of the scenario matrix (`struct TestConfig`). -/
structure TestConfig where
  executor : Executor
  measureTiming : MeasureTiming
  outputType : OutputType
  reportSkipping : Bool
deriving DecidableEq, Repr

/-- `V1_2::OutputShape`. -/
structure OutputShape where
  dimensions : List Nat
  isSufficient : Bool
deriving DecidableEq, Repr

def defaultOutputShape : OutputShape := ⟨[], true⟩

/-- The sentinel for an unknown timing value (`UINT64_MAX`). -/
def UINT64_MAX : Nat := 2 ^ 64 - 1

/-- `V1_2::Timing`: both fields are `uint64_t` durations. -/
structure Timing where
  timeOnDevice : Nat
  timeInDriver : Nat
deriving DecidableEq, Repr

/-- What one execution attempt returns, uniformly across the three
protocols: the backend-reported status, the output-shape list and the
timing pair.  Supplied by the driver, which is a black box here. -/
structure ExecutionOutcome where
  status : ErrorStatus
  outputShapes : List OutputShape
  timing : Timing
deriving DecidableEq, Repr

/-! ## Request builder -/

/-- One `V1_0::RequestArgument` (only the location matters here). -/
structure RequestArgument where
  location : DataLocation
deriving DecidableEq, Repr

def defaultRequestArgument : RequestArgument := ⟨⟨0, 0, 0⟩⟩

/-- `V1_0::Request` (pools elided; they are opaque buffers). -/
structure Request where
  inputs : List RequestArgument
  outputs : List RequestArgument
deriving DecidableEq, Repr

/-- One argument per operand index, walking an aligned cursor within the
designated pool; the byte length is the declared byte size of the
operand data. -/
def requestArgsFor (tm : TestModel) (poolIndex : Nat) : List Nat → Nat → List RequestArgument
  | [], _ => []
  | k :: rest, cursor =>
    let size := (tm.operands.getD k defaultTestOperand).data.length
    ⟨⟨poolIndex, cursor, size⟩⟩ :: requestArgsFor tm poolIndex rest (cursor + alignedSize size)

/-- Modelled from the spec: `createRequest` lives in `1.0/Utils.cpp`, which
is not part of this repository snapshot.  Per §3/§4.2 the request carries
one memory pool entry per input/output describing (poolIndex, byteOffset,
byteLength), the byte length being the declared byte size of the operand
data; inputs and outputs are packed into one pool each at aligned
offsets. -/
def createRequest (tm : TestModel) : Request :=
  { inputs := requestArgsFor tm 0 tm.inputIndexes 0,
    outputs := requestArgsFor tm 1 tm.outputIndexes 0 }

/-- `makeOutputInsufficientSize(outputIndex, request)`: assert the
addressed output byte length exceeds 1, then decrease it by one.  The
returned flag records whether the `ASSERT_GT` fired (a gtest fatal
assertion in a helper returns from the helper without mutating, and marks
the test failed). -/
def makeOutputInsufficientSize (outputIndex : Nat) (request : Request) : Request × Bool :=
  let arg := request.outputs.getD outputIndex defaultRequestArgument
  if 1 < arg.location.length then
    ({ request with
        outputs := request.outputs.set outputIndex
          { arg with location := { arg.location with length := arg.location.length - 1 } } },
      false)
  else
    (request, true)

/-- `isOutputSizeGreaterThanOne(testModel, index)`. -/
def isOutputSizeGreaterThanOne (tm : TestModel) (index : Nat) : Bool :=
  let byteSize := (tm.operands.getD (tm.outputIndexes.getD index 0) defaultTestOperand).data.length
  decide (1 < byteSize)

/-! ## Evaluator -/

/-- Reified observable effects of one `EvaluatePreparedModel` invocation.
`skippedFlag` is the value left in the caller-supplied `*skipped`;
`gtestSkipped` records a `GTEST_SKIP()`; the `...Failed` fields record the
assertion groups that fired (`ASSERT_GT` inside the shrink helper, the
timing `EXPECT`s, the fatal status/shape-count/sufficiency `ASSERT`s of the
output-type switch, the per-output `EXPECT`s of the final loop);
`buffersRetrieved`/`comparatorInvoked` record reaching
`getOutputBuffers`/`checkResults`. -/
structure Evaluation where
  skippedFlag : Bool
  requestBuilt : Bool
  gtestSkipped : Bool
  shrinkAssertFailed : Bool
  timingFailed : Bool
  statusShapeFailed : Bool
  perOutputFailed : Bool
  buffersRetrieved : Bool
  comparatorInvoked : Bool
deriving DecidableEq, Repr

/-- Any recorded gtest failure: the test is reported failed. -/
def testFailed (e : Evaluation) : Bool :=
  e.shrinkAssertFailed || e.timingFailed || e.statusShapeFailed || e.perOutputFailed

/-- `EvaluatePreparedModel(preparedModel, testModel, testConfig, skipped)`.
The driver interaction is abstracted: `outcome` is the (status, shapes,
timing) triple the selected executor hands back (transport-level dispatch
is assumed healthy; its failure is a fatal launch assertion outside the
properties considered here). -/
def evaluatePreparedModel (tm : TestModel) (cfg : TestConfig) (outcome : ExecutionOutcome) :
    Evaluation :=
  -- If output0 does not have size larger than one byte, we can not test
  -- with insufficient buffer: return with *skipped still false.
  if cfg.outputType = OutputType.INSUFFICIENT ∧ isOutputSizeGreaterThanOne tm 0 = false then
    { skippedFlag := false, requestBuilt := false, gtestSkipped := false,
      shrinkAssertFailed := false, timingFailed := false, statusShapeFailed := false,
      perOutputFailed := false, buffersRetrieved := false, comparatorInvoked := false }
  else
    let request0 := createRequest tm
    let shrunk :=
      if cfg.outputType = OutputType.INSUFFICIENT then makeOutputInsufficientSize 0 request0
      else (request0, false)
    let shrinkAssertFailed := shrunk.2
    -- the selected executor runs here and produces `outcome`
    if cfg.outputType ≠ OutputType.FULLY_SPECIFIED ∧
        outcome.status = ErrorStatus.GENERAL_FAILURE then
      { skippedFlag := true, requestBuilt := true, gtestSkipped := cfg.reportSkipping,
        shrinkAssertFailed := shrinkAssertFailed, timingFailed := false,
        statusShapeFailed := false, perOutputFailed := false, buffersRetrieved := false,
        comparatorInvoked := false }
    else
      let t := outcome.timing
      let timingFailed :=
        match cfg.measureTiming with
        | MeasureTiming.NO =>
          decide (¬ (t.timeOnDevice = UINT64_MAX ∧ t.timeInDriver = UINT64_MAX))
        | MeasureTiming.YES =>
          if t.timeOnDevice ≠ UINT64_MAX ∧ t.timeInDriver ≠ UINT64_MAX then
            decide (¬ t.timeOnDevice ≤ t.timeInDriver)
          else false
      let nOutputs := tm.outputIndexes.length
      let statusShapeFailed :=
        match cfg.outputType with
        | OutputType.FULLY_SPECIFIED =>
          decide (¬ (outcome.status = ErrorStatus.NONE ∧
            (outcome.outputShapes.length = 0 ∨ outcome.outputShapes.length = nOutputs)))
        | OutputType.UNSPECIFIED =>
          decide (¬ (outcome.status = ErrorStatus.NONE ∧
            outcome.outputShapes.length = nOutputs))
        | OutputType.INSUFFICIENT =>
          decide (¬ (outcome.status = ErrorStatus.OUTPUT_INSUFFICIENT_SIZE ∧
            outcome.outputShapes.length = nOutputs ∧
            (outcome.outputShapes.getD 0 defaultOutputShape).isSufficient = false))
      if statusShapeFailed then
        { skippedFlag := false, requestBuilt := true, gtestSkipped := false,
          shrinkAssertFailed := shrinkAssertFailed, timingFailed := timingFailed,
          statusShapeFailed := true, perOutputFailed := false, buffersRetrieved := false,
          comparatorInvoked := false }
      else if cfg.outputType = OutputType.INSUFFICIENT then
        -- validation ends here: no output retrieval, no numeric comparison
        { skippedFlag := false, requestBuilt := true, gtestSkipped := false,
          shrinkAssertFailed := shrinkAssertFailed, timingFailed := timingFailed,
          statusShapeFailed := false, perOutputFailed := false, buffersRetrieved := false,
          comparatorInvoked := false }
      else
        let perOutputFailed := (List.range outcome.outputShapes.length).any fun i =>
          let shape := outcome.outputShapes.getD i defaultOutputShape
          let expect :=
            (tm.operands.getD (tm.outputIndexes.getD i 0) defaultTestOperand).dimensions
          decide (¬ (shape.isSufficient = true ∧ expect = shape.dimensions))
        { skippedFlag := false, requestBuilt := true, gtestSkipped := false,
          shrinkAssertFailed := shrinkAssertFailed, timingFailed := timingFailed,
          statusShapeFailed := false, perOutputFailed := perOutputFailed,
          buffersRetrieved := true, comparatorInvoked := true }

/-! ## Scenario matrix and coupling orchestrator -/

/-- The configuration list of `EvaluatePreparedCoupledModels`:
{FULLY_SPECIFIED} x {NO, YES} x {ASYNC, SYNC, BURST}, each with skip
reporting suppressed. -/
def coupledConfigs : List TestConfig :=
  [OutputType.FULLY_SPECIFIED].flatMap fun outputType =>
    [MeasureTiming.NO, MeasureTiming.YES].flatMap fun measureTiming =>
      [Executor.ASYNC, Executor.SYNC, Executor.BURST].map fun executor =>
        ⟨executor, measureTiming, outputType, false⟩

/-- Result of the coupled pairwise run: whether some
`ASSERT_EQ(baseSkipped, coupledSkipped)` fired, and whether the
early-termination `GTEST_SKIP` branch was taken. -/
structure CoupledRunResult where
  pairAssertFailed : Bool
  earlySkipTaken : Bool
deriving DecidableEq, Repr

/-- The loop body of `EvaluatePreparedCoupledModels`: evaluate both models
under the same configuration, assert their skip flags agree (fatal on
mismatch), and end the test in a skip as soon as a pair was skipped.
`baseOutcome`/`coupledOutcome` are the driver responses per
configuration. -/
def runCoupledConfigs (tm coupledTm : TestModel)
    (baseOutcome coupledOutcome : TestConfig → ExecutionOutcome) :
    List TestConfig → CoupledRunResult
  | [] => ⟨false, false⟩
  | cfg :: rest =>
    let baseSkipped := (evaluatePreparedModel tm cfg (baseOutcome cfg)).skippedFlag
    let coupledSkipped := (evaluatePreparedModel coupledTm cfg (coupledOutcome cfg)).skippedFlag
    if baseSkipped ≠ coupledSkipped then ⟨true, false⟩
    else if baseSkipped then ⟨false, true⟩
    else runCoupledConfigs tm coupledTm baseOutcome coupledOutcome rest

/-- `EvaluatePreparedCoupledModels`. -/
def evaluatePreparedCoupledModels (tm coupledTm : TestModel)
    (baseOutcome coupledOutcome : TestConfig → ExecutionOutcome) : CoupledRunResult :=
  runCoupledConfigs tm coupledTm baseOutcome coupledOutcome coupledConfigs

/-- Observable outcome of the `QUANTIZATION_COUPLING` branch of `Execute`:
whether model preparation was attempted at all, whether a fatal assertion
fired, whether the both-unsupported `GTEST_SKIP` was taken, and whether
control reached `EvaluatePreparedCoupledModels`. -/
structure CouplingResult where
  prepareAttempted : Bool
  hardFailed : Bool
  gtestSkipped : Bool
  proceeded : Bool
deriving DecidableEq, Repr

/-- The `QUANTIZATION_COUPLING` branch of `Execute(device, testModel,
testKind)`.  `prepBase`/`prepCoupled` say whether `createPreparedModel`
produced a non-null handle for the unsigned and the signed-quantized model
(`convertQuant8AsymmOperandsToSigned` and preparation are black boxes).
First `ASSERT_TRUE(testModel.hasQuant8CoupledOperands())`, then prepare
both; a null base handle requires a null coupled handle (else fatal) and
skips, a non-null base handle requires a non-null coupled handle (else
fatal) and proceeds to the pairwise evaluation. -/
def executeQuantizationCoupling (tm : TestModel) (prepBase prepCoupled : Bool) :
    CouplingResult :=
  if tm.hasQuant8CoupledOperands = false then
    { prepareAttempted := false, hardFailed := true, gtestSkipped := false, proceeded := false }
  else if prepBase = false then
    if prepCoupled = true then
      { prepareAttempted := true, hardFailed := true, gtestSkipped := false, proceeded := false }
    else
      { prepareAttempted := true, hardFailed := false, gtestSkipped := true, proceeded := false }
  else if prepCoupled = false then
    { prepareAttempted := true, hardFailed := true, gtestSkipped := false, proceeded := false }
  else
    { prepareAttempted := true, hardFailed := false, gtestSkipped := false, proceeded := true }

/-- The filter of `INSTANTIATE_GENERATED_TEST(QuantizationCouplingTest, ...)`. -/
def quantizationCouplingFilter (tm : TestModel) : Bool :=
  tm.hasQuant8CoupledOperands && decide (tm.operations.length = 1)

/-! ## Concrete sample inputs (used by witnesses and counterexamples) -/

/-- A minimal model with one two-byte output operand. -/
def tmW : TestModel :=
  { operands := [{ defaultTestOperand with
      lifetime := TestOperandLifeTime.SUBGRAPH_OUTPUT, data := [7, 7], dimensions := [2] }],
    operations := [], inputIndexes := [], outputIndexes := [0],
    isRelaxed := false, expectFailure := false, hasQuant8CoupledOperands := false }

/-- `tmW` with the coupled-quantization predicate set and one operation. -/
def tmQ : TestModel :=
  { tmW with hasQuant8CoupledOperands := true, operations := [⟨0, [], []⟩] }

/-- An INSUFFICIENT-policy configuration (skip reporting on, as in the
DYNAMIC_SHAPE matrix). -/
def cfgIns : TestConfig := ⟨Executor.SYNC, MeasureTiming.NO, OutputType.INSUFFICIENT, true⟩

/-- A well-formed insufficient-buffer outcome for `tmW`. -/
def outOk : ExecutionOutcome :=
  ⟨ErrorStatus.OUTPUT_INSUFFICIENT_SIZE, [⟨[2], false⟩], ⟨UINT64_MAX, UINT64_MAX⟩⟩

/-- A general-failure outcome. -/
def outGF : ExecutionOutcome :=
  ⟨ErrorStatus.GENERAL_FAILURE, [], ⟨UINT64_MAX, UINT64_MAX⟩⟩

/-- A request whose single output has byte length 3. -/
def r3 : Request := ⟨[], [⟨⟨1, 0, 3⟩⟩]⟩

/-- A constant-copy operand of `n` zero bytes. -/
def bigOp (n : Nat) : TestOperand :=
  { defaultTestOperand with
    lifetime := TestOperandLifeTime.CONSTANT_COPY, dimensions := [n],
    numberOfConsumers := 1, data := List.replicate n 0 }

/-- A model whose constant-copy data exceeds 4 GiB, so the `uint32_t`
offset casts of the translator wrap. -/
def overflowModel : TestModel :=
  { operands := [bigOp 16, bigOp (2 ^ 32 - 8), bigOp 8],
    operations := [], inputIndexes := [], outputIndexes := [],
    isRelaxed := false, expectFailure := false, hasQuant8CoupledOperands := false }

/-- A constant-copy operand with the given bytes. -/
def cOp (data : List Nat) : TestOperand :=
  { defaultTestOperand with lifetime := TestOperandLifeTime.CONSTANT_COPY, data := data }

/-- A small model with two constant-copy operands. -/
def smallConstModel : TestModel :=
  { operands := [cOp [1, 2, 3], cOp [4, 5]],
    operations := [], inputIndexes := [], outputIndexes := [],
    isRelaxed := false, expectFailure := false, hasQuant8CoupledOperands := false }

/-! ## Helper lemmas -/

theorem getD_set_self {α : Type} (l : List α) (i : Nat) (a d : α) (h : i < l.length) :
    (l.set i a).getD i d = a := by
  induction l generalizing i with
  | nil => simp at h
  | cons hd tl ih =>
    cases i with
    | zero => rfl
    | succ n => exact ih n (by simpa using h)

theorem getD_default_of_le {α : Type} (l : List α) (i : Nat) (d : α) (h : l.length ≤ i) :
    l.getD i d = d := by
  induction l generalizing i with
  | nil => rfl
  | cons hd tl ih =>
    cases i with
    | zero => simp at h
    | succ n => exact ih n (by simpa using h)

/-- Under the guard `isOutputSizeGreaterThanOne(testModel, 0)`, the shrink
helper applied to a freshly built request does not trip its
`ASSERT_GT(length, 1u)`: the byte length createRequest assigned to output 0
is exactly the byte size the guard inspected. -/
theorem shrink_assert_ok (tm : TestModel) (hout : tm.outputIndexes ≠ [])
    (hbig : isOutputSizeGreaterThanOne tm 0 = true) :
    (makeOutputInsufficientSize 0 (createRequest tm)).2 = false := by
  obtain ⟨k, rest, hk⟩ : ∃ k rest, tm.outputIndexes = k :: rest := by
    cases h : tm.outputIndexes with
    | nil => exact absurd h hout
    | cons k rest => exact ⟨k, rest, rfl⟩
  have hsize : 1 < (tm.operands.getD k defaultTestOperand).data.length := by
    have := hbig
    unfold isOutputSizeGreaterThanOne at this
    rw [hk] at this
    simpa using this
  unfold makeOutputInsufficientSize createRequest
  rw [hk]
  unfold requestArgsFor
  simp only [List.getD_cons_zero]
  rw [if_pos hsize]

/-- The `*skipped` out-parameter is set to `true` only on the
policy-is-not-fully-specified and status-is-general-failure branch. -/
theorem skippedFlag_only_general_failure (tm : TestModel) (cfg : TestConfig)
    (out : ExecutionOutcome) (h : (evaluatePreparedModel tm cfg out).skippedFlag = true) :
    cfg.outputType ≠ OutputType.FULLY_SPECIFIED ∧ out.status = ErrorStatus.GENERAL_FAILURE := by
  by_cases hgf : cfg.outputType ≠ OutputType.FULLY_SPECIFIED ∧ out.status = ErrorStatus.GENERAL_FAILURE
  · exact hgf
  · exfalso
    apply absurd h
    simp only [evaluatePreparedModel]
    repeat' split
    all_goals simp_all

/-- Under the fully-specified policy the evaluator never sets `*skipped`. -/
theorem skippedFlag_false_of_fully_specified (tm : TestModel) (cfg : TestConfig)
    (out : ExecutionOutcome) (h : cfg.outputType = OutputType.FULLY_SPECIFIED) :
    (evaluatePreparedModel tm cfg out).skippedFlag = false := by
  by_contra hne
  have := skippedFlag_only_general_failure tm cfg out (by
    cases hval : (evaluatePreparedModel tm cfg out).skippedFlag with
    | true => rfl
    | false => exact absurd hval hne)
  exact this.1 h

/-- On every path reaching the timing check (no insufficient-size early
return, no general-failure skip), the recorded timing verdict is the one
computed by the two `EXPECT` groups at lines 325..332. -/
theorem eval_timingFailed_eq (tm : TestModel) (cfg : TestConfig) (out : ExecutionOutcome)
    (h1 : ¬(cfg.outputType = OutputType.INSUFFICIENT ∧ isOutputSizeGreaterThanOne tm 0 = false))
    (h2 : ¬(cfg.outputType ≠ OutputType.FULLY_SPECIFIED ∧
      out.status = ErrorStatus.GENERAL_FAILURE)) :
    (evaluatePreparedModel tm cfg out).timingFailed =
      match cfg.measureTiming with
      | MeasureTiming.NO =>
        decide (¬ (out.timing.timeOnDevice = UINT64_MAX ∧ out.timing.timeInDriver = UINT64_MAX))
      | MeasureTiming.YES =>
        if out.timing.timeOnDevice ≠ UINT64_MAX ∧ out.timing.timeInDriver ≠ UINT64_MAX then
          decide (¬ out.timing.timeOnDevice ≤ out.timing.timeInDriver)
        else false := by
  simp only [evaluatePreparedModel]
  rw [if_neg h1, if_neg h2]
  repeat' split
  all_goals simp_all

/-- Running the coupled pairwise loop over configurations that all use the
fully-specified policy can neither trip the skip-equality assertion nor
reach the early-termination skip. -/
theorem runCoupledConfigs_all_fully_specified (tm coupledTm : TestModel)
    (baseOutcome coupledOutcome : TestConfig → ExecutionOutcome) (cfgs : List TestConfig)
    (h : ∀ cfg ∈ cfgs, cfg.outputType = OutputType.FULLY_SPECIFIED) :
    runCoupledConfigs tm coupledTm baseOutcome coupledOutcome cfgs = ⟨false, false⟩ := by
  induction cfgs with
  | nil => rfl
  | cons cfg rest ih =>
    have hcfg : cfg.outputType = OutputType.FULLY_SPECIFIED := h cfg (List.mem_cons_self cfg rest)
    have hb := skippedFlag_false_of_fully_specified tm cfg (baseOutcome cfg) hcfg
    have hc := skippedFlag_false_of_fully_specified coupledTm cfg (coupledOutcome cfg) hcfg
    unfold runCoupledConfigs
    rw [hb, hc]
    simpa using ih (fun c hc2 => h c (List.mem_cons_of_mem cfg hc2))

/-! ## Claim theorems -/

/-- C1: for every evaluation under the INSUFFICIENT output-shape policy
that reaches validation (output 0 large enough, status not the
general-failure skip), the evaluator passes the fatal validation group
exactly when the status is OUTPUT_INSUFFICIENT_SIZE, the returned shape
list has exactly one entry per declared output, and output 0 is marked
insufficient; and in all cases validation ends there: no output buffers
are retrieved and the numeric comparator is never invoked. -/
theorem C1_insufficient_validation (tm : TestModel) (cfg : TestConfig) (out : ExecutionOutcome)
    (hcfg : cfg.outputType = OutputType.INSUFFICIENT)
    (hbig : isOutputSizeGreaterThanOne tm 0 = true)
    (hnogf : out.status ≠ ErrorStatus.GENERAL_FAILURE) :
    (evaluatePreparedModel tm cfg out).buffersRetrieved = false ∧
    (evaluatePreparedModel tm cfg out).comparatorInvoked = false ∧
    ((evaluatePreparedModel tm cfg out).statusShapeFailed = false ↔
      (out.status = ErrorStatus.OUTPUT_INSUFFICIENT_SIZE ∧
       out.outputShapes.length = tm.outputIndexes.length ∧
       (out.outputShapes.getD 0 defaultOutputShape).isSufficient = false)) := by
  by_cases hok : out.status = ErrorStatus.OUTPUT_INSUFFICIENT_SIZE ∧
      out.outputShapes.length = tm.outputIndexes.length ∧
      (out.outputShapes.getD 0 defaultOutputShape).isSufficient = false
  · obtain ⟨h1, h2, h3⟩ := hok
    simp_all [evaluatePreparedModel]
  · rcases Decidable.em (out.status = ErrorStatus.OUTPUT_INSUFFICIENT_SIZE) with hA | hA
    · rcases Decidable.em
          (out.outputShapes.length = tm.outputIndexes.length) with hB | hB
      · have hS : (out.outputShapes.getD 0 defaultOutputShape).isSufficient = true := by
          cases hS0 : (out.outputShapes.getD 0 defaultOutputShape).isSufficient with
          | false => exact absurd ⟨hA, hB, hS0⟩ hok
          | true => rfl
        clear hok
        simp_all [evaluatePreparedModel]
      · clear hok
        simp_all [evaluatePreparedModel]
    · clear hok
      simp_all [evaluatePreparedModel]

/-- C1 witness: the theorem applied to a concrete model, configuration and
outcome. -/
theorem C1_witness :
    cfgIns.outputType = OutputType.INSUFFICIENT ∧
    isOutputSizeGreaterThanOne tmW 0 = true ∧
    (evaluatePreparedModel tmW cfgIns outOk).buffersRetrieved = false ∧
    (evaluatePreparedModel tmW cfgIns outOk).comparatorInvoked = false :=
  ⟨by decide, by decide,
    (C1_insufficient_validation tmW cfgIns outOk (by decide) (by decide) (by decide)).1,
    (C1_insufficient_validation tmW cfgIns outOk (by decide) (by decide) (by decide)).2.1⟩

/-- C2 counterexample: under the INSUFFICIENT policy, a returned
GENERAL_FAILURE status — which is not the "output buffer too small"
status — produces a `GTEST_SKIP` and no test failure, contradicting the
claim that every status other than "too small" is a hard failure and never
a skip. -/
theorem C2_counterexample :
    cfgIns.outputType = OutputType.INSUFFICIENT ∧
    outGF.status ≠ ErrorStatus.OUTPUT_INSUFFICIENT_SIZE ∧
    (evaluatePreparedModel tmW cfgIns outGF).gtestSkipped = true ∧
    testFailed (evaluatePreparedModel tmW cfgIns outGF) = false := by
  decide

/-- C2 (amended): under the INSUFFICIENT policy, among returned statuses
other than OUTPUT_INSUFFICIENT_SIZE, GENERAL_FAILURE is treated as an
unsupported-capability signal — the skipped flag is set and, when skip
reporting is enabled, the test is skipped, with no failure recorded; every
other status is a hard test failure and never a skip. -/
theorem C2_amended_general_failure_skips (tm : TestModel) (cfg : TestConfig)
    (out : ExecutionOutcome)
    (hcfg : cfg.outputType = OutputType.INSUFFICIENT)
    (hout : tm.outputIndexes ≠ [])
    (hbig : isOutputSizeGreaterThanOne tm 0 = true)
    (hst : out.status ≠ ErrorStatus.OUTPUT_INSUFFICIENT_SIZE) :
    (out.status = ErrorStatus.GENERAL_FAILURE →
      testFailed (evaluatePreparedModel tm cfg out) = false ∧
      (evaluatePreparedModel tm cfg out).skippedFlag = true ∧
      (evaluatePreparedModel tm cfg out).gtestSkipped = cfg.reportSkipping) ∧
    (out.status ≠ ErrorStatus.GENERAL_FAILURE →
      testFailed (evaluatePreparedModel tm cfg out) = true ∧
      (evaluatePreparedModel tm cfg out).gtestSkipped = false) := by
  have hsh : (makeOutputInsufficientSize 0 (createRequest tm)).2 = false :=
    shrink_assert_ok tm hout hbig
  constructor
  · intro hgf
    simp [evaluatePreparedModel, testFailed, hcfg, hbig, hgf, hsh]
  · intro hngf
    simp [evaluatePreparedModel, testFailed, hcfg, hbig, hngf, hst, hsh]

/-- C2 witness: the amended theorem applied to a concrete model,
configuration and general-failure outcome. -/
theorem C2_witness :
    outGF.status ≠ ErrorStatus.OUTPUT_INSUFFICIENT_SIZE ∧
    testFailed (evaluatePreparedModel tmW cfgIns outGF) = false ∧
    (evaluatePreparedModel tmW cfgIns outGF).skippedFlag = true :=
  ⟨by decide,
    ((C2_amended_general_failure_skips tmW cfgIns outGF (by decide) (by decide) (by decide)
      (by decide)).1 (by decide)).1,
    ((C2_amended_general_failure_skips tmW cfgIns outGF (by decide) (by decide) (by decide)
      (by decide)).1 (by decide)).2.1⟩

/-- C6: for every execution outcome that reaches the timing check, with
timing measurement disabled both reported fields must equal the unknown
sentinel `UINT64_MAX`, and with it enabled and both fields known the
on-device time must not exceed the in-driver time; the check is identical
for all three execution protocols (the executor is arbitrary in `cfg`). -/
theorem C6_timing_invariant (tm : TestModel) (cfg : TestConfig) (out : ExecutionOutcome)
    (h1 : ¬(cfg.outputType = OutputType.INSUFFICIENT ∧ isOutputSizeGreaterThanOne tm 0 = false))
    (h2 : ¬(cfg.outputType ≠ OutputType.FULLY_SPECIFIED ∧
      out.status = ErrorStatus.GENERAL_FAILURE)) :
    (evaluatePreparedModel tm cfg out).timingFailed = false ↔
      ((cfg.measureTiming = MeasureTiming.NO →
          out.timing.timeOnDevice = UINT64_MAX ∧ out.timing.timeInDriver = UINT64_MAX) ∧
       (cfg.measureTiming = MeasureTiming.YES →
          out.timing.timeOnDevice ≠ UINT64_MAX → out.timing.timeInDriver ≠ UINT64_MAX →
          out.timing.timeOnDevice ≤ out.timing.timeInDriver)) := by
  rw [eval_timingFailed_eq tm cfg out h1 h2]
  cases hmt : cfg.measureTiming with
  | NO => simp
  | YES =>
    by_cases hk : out.timing.timeOnDevice ≠ UINT64_MAX ∧ out.timing.timeInDriver ≠ UINT64_MAX
    all_goals simp [hk]
    all_goals tauto

/-- C6 witness: the theorem applied to a concrete configuration with
timing disabled and both fields at the sentinel. -/
theorem C6_witness :
    (evaluatePreparedModel tmW cfgIns outOk).timingFailed = false :=
  (C6_timing_invariant tmW cfgIns outOk (by decide) (by decide)).mpr (by decide)

/-- C7: under the INSUFFICIENT policy the evaluator skips the scenario
before building any request exactly when output 0 has declared byte size
at most 1; consequently whenever the shrink helper is invoked its asserted
precondition (byte length greater than 1) holds and the assertion never
fires. -/
theorem C7_insufficient_skip_guard (tm : TestModel) (cfg : TestConfig) (out : ExecutionOutcome)
    (hcfg : cfg.outputType = OutputType.INSUFFICIENT)
    (hout : tm.outputIndexes ≠ []) :
    ((evaluatePreparedModel tm cfg out).requestBuilt = false ↔
      isOutputSizeGreaterThanOne tm 0 = false) ∧
    (evaluatePreparedModel tm cfg out).shrinkAssertFailed = false := by
  by_cases hbig : isOutputSizeGreaterThanOne tm 0 = true
  · have hsh : (makeOutputInsufficientSize 0 (createRequest tm)).2 = false :=
      shrink_assert_ok tm hout hbig
    constructor
    · simp only [evaluatePreparedModel]
      rw [if_neg (by simp [hbig])]
      repeat' split
      all_goals simp_all
    · simp only [evaluatePreparedModel]
      rw [if_neg (by simp [hbig])]
      repeat' split
      all_goals simp_all
  · have hbig2 : isOutputSizeGreaterThanOne tm 0 = false := by
      cases h : isOutputSizeGreaterThanOne tm 0 with
      | true => exact absurd h hbig
      | false => rfl
    simp [evaluatePreparedModel, hcfg, hbig2]

/-- C7 witness: a concrete INSUFFICIENT-policy run with a two-byte output;
the request is built and the shrink assertion does not fire. -/
theorem C7_witness :
    ((evaluatePreparedModel tmW cfgIns outOk).requestBuilt = false ↔
      isOutputSizeGreaterThanOne tmW 0 = false) ∧
    (evaluatePreparedModel tmW cfgIns outOk).shrinkAssertFailed = false :=
  C7_insufficient_skip_guard tmW cfgIns outOk (by decide) (by decide)

/-- C3: in a quantization-coupling run, an asymmetric preparation outcome
(exactly one null prepared handle) is a hard test failure and never a
skip; when both preparations fail the remainder is skipped rather than
failed; when both succeed, evaluation proceeds. -/
theorem C3_coupling_preparation_symmetry (tm : TestModel) (prepBase prepCoupled : Bool)
    (h : tm.hasQuant8CoupledOperands = true) :
    (executeQuantizationCoupling tm prepBase prepCoupled).hardFailed = (prepBase != prepCoupled) ∧
    (executeQuantizationCoupling tm prepBase prepCoupled).gtestSkipped =
      (!prepBase && !prepCoupled) ∧
    (executeQuantizationCoupling tm prepBase prepCoupled).proceeded =
      (prepBase && prepCoupled) := by
  cases prepBase <;> cases prepCoupled <;> simp [executeQuantizationCoupling, h]

/-- C3 witness: the theorem applied to a coupled model with an asymmetric
preparation outcome. -/
theorem C3_witness :
    tmQ.hasQuant8CoupledOperands = true ∧
    (executeQuantizationCoupling tmQ true false).hardFailed = (true != false) ∧
    (executeQuantizationCoupling tmQ true false).gtestSkipped = (!true && !false) :=
  ⟨by decide, (C3_coupling_preparation_symmetry tmQ true false (by decide)).1,
    (C3_coupling_preparation_symmetry tmQ true false (by decide)).2.1⟩

/-- C8 counterexample: a request whose addressed output has byte length 3
satisfies the validity precondition (length greater than 1), yet applying
the shrink helper twice does not leave the request in the state one
application produces — the helper is not idempotent. -/
theorem C8_counterexample :
    1 < ((r3.outputs.getD 0 defaultRequestArgument).location.length) ∧
    (makeOutputInsufficientSize 0 (makeOutputInsufficientSize 0 r3).1).1 ≠
      (makeOutputInsufficientSize 0 r3).1 := by
  decide

/-- C8 (amended): the shrink helper is not idempotent; for every request
whose addressed output has byte length greater than 1, one application
decreases that byte length by exactly one, with the precondition assertion
passing. -/
theorem C8_amended_shrink_decreases_by_one (r : Request) (i : Nat)
    (h : 1 < (r.outputs.getD i defaultRequestArgument).location.length) :
    ((makeOutputInsufficientSize i r).1.outputs.getD i defaultRequestArgument).location.length =
      (r.outputs.getD i defaultRequestArgument).location.length - 1 ∧
    (makeOutputInsufficientSize i r).2 = false := by
  have hi : i < r.outputs.length := by
    by_contra hni
    rw [getD_default_of_le r.outputs i defaultRequestArgument (Nat.le_of_not_lt hni)] at h
    simp [defaultRequestArgument] at h
  unfold makeOutputInsufficientSize
  rw [if_pos h]
  constructor
  · simp only []
    rw [getD_set_self r.outputs i _ defaultRequestArgument hi]
  · rfl

/-- C8 witness: the amended theorem applied to the length-3 request. -/
theorem C8_witness :
    1 < ((r3.outputs.getD 0 defaultRequestArgument).location.length) ∧
    ((makeOutputInsufficientSize 0 r3).1.outputs.getD 0
        defaultRequestArgument).location.length =
      (r3.outputs.getD 0 defaultRequestArgument).location.length - 1 :=
  ⟨by decide, (C8_amended_shrink_decreases_by_one r3 0 (by decide)).1⟩

/-- C9: every coupled-pair configuration uses the FULLY_SPECIFIED policy;
the evaluator sets its skipped flag only when the policy is not
FULLY_SPECIFIED and the status is a general failure; consequently, for
arbitrary driver behaviour, the pairwise skip-equality assertion never
fires and the coupled early-skip branch is unreachable. -/
theorem C9_coupled_skip_flags_false (tm coupledTm : TestModel)
    (baseOutcome coupledOutcome : TestConfig → ExecutionOutcome) :
    (∀ cfg ∈ coupledConfigs, cfg.outputType = OutputType.FULLY_SPECIFIED ∧
      cfg.reportSkipping = false) ∧
    (∀ (tm2 : TestModel) (cfg : TestConfig) (out : ExecutionOutcome),
      (evaluatePreparedModel tm2 cfg out).skippedFlag = true →
      cfg.outputType ≠ OutputType.FULLY_SPECIFIED ∧
        out.status = ErrorStatus.GENERAL_FAILURE) ∧
    evaluatePreparedCoupledModels tm coupledTm baseOutcome coupledOutcome = ⟨false, false⟩ := by
  refine ⟨by decide, skippedFlag_only_general_failure, ?_⟩
  exact runCoupledConfigs_all_fully_specified tm coupledTm baseOutcome coupledOutcome
    coupledConfigs (by decide)

/-- C9 witness: the theorem applied to concrete models and driver
responses, including a concrete instantiation of the skip-flag
implication. -/
theorem C9_witness :
    evaluatePreparedCoupledModels tmW tmW (fun _ => outOk) (fun _ => outOk) = ⟨false, false⟩ ∧
    cfgIns.outputType ≠ OutputType.FULLY_SPECIFIED :=
  ⟨(C9_coupled_skip_flags_false tmW tmW (fun _ => outOk) (fun _ => outOk)).2.2,
    ((C9_coupled_skip_flags_false tmW tmW (fun _ => outOk) (fun _ => outOk)).2.1
      tmW cfgIns outGF (by decide)).1⟩

/-- C10: the quantization-coupling test is instantiated exactly for models
exposing coupled quant8 operands with exactly one operation, and for a
model without the coupled-operand predicate the coupling branch fails its
first assertion before attempting any preparation. -/
theorem C10_coupling_entry_guard (tm : TestModel) :
    (quantizationCouplingFilter tm = true ↔
      (tm.hasQuant8CoupledOperands = true ∧ tm.operations.length = 1)) ∧
    (tm.hasQuant8CoupledOperands = false → ∀ prepBase prepCoupled : Bool,
      (executeQuantizationCoupling tm prepBase prepCoupled).prepareAttempted = false ∧
      (executeQuantizationCoupling tm prepBase prepCoupled).hardFailed = true) := by
  constructor
  · simp [quantizationCouplingFilter]
  · intro h prepBase prepCoupled
    simp [executeQuantizationCoupling, h]

/-- C10 witness: the theorem applied to a model with the predicate and one
operation, and to a model without the predicate. -/
theorem C10_witness :
    quantizationCouplingFilter tmQ = true ∧
    (executeQuantizationCoupling tmW true true).prepareAttempted = false :=
  ⟨(C10_coupling_entry_guard tmQ).1.mpr (by decide),
    ((C10_coupling_entry_guard tmW).2 (by decide) true true).1⟩

/-- The constant-loading loop writes the same bytes relative to the mapped
base address, whatever that address is: if two byte stores agree relative
to bases `a` and `b`, they still agree after loading the constants. -/
theorem writeConstants_shift (lt : TestOperandLifeTime) (a b : Nat)
    (pairs : List (TestOperand × DataLocation)) :
    ∀ (m1 m2 : Nat → Nat), (∀ i, m1 (a + i) = m2 (b + i)) →
    ∀ i, writeConstants lt a pairs m1 (a + i) = writeConstants lt b pairs m2 (b + i) := by
  induction pairs with
  | nil =>
    intro m1 m2 h i
    exact h i
  | cons pair rest ih =>
    intro m1 m2 h i
    obtain ⟨op, loc⟩ := pair
    unfold writeConstants
    by_cases hlt : op.lifetime = lt
    · rw [if_pos hlt, if_pos hlt]
      apply ih
      intro j
      unfold writeMem
      by_cases hin : a + loc.offset ≤ a + j ∧ a + j < a + loc.offset + op.data.length
      · have hin2 : b + loc.offset ≤ b + j ∧ b + j < b + loc.offset + op.data.length := by
          omega
        rw [if_pos hin, if_pos hin2]
        have harith : a + j - (a + loc.offset) = b + j - (b + loc.offset) := by omega
        rw [harith]
      · have hin2 : ¬(b + loc.offset ≤ b + j ∧ b + j < b + loc.offset + op.data.length) := by
          omega
        rw [if_neg hin, if_neg hin2]
        exact h j
    · rw [if_neg hlt, if_neg hlt]
      exact ih m1 m2 h i

/-- The shared-pool bytes the translator produces do not depend on the
address at which the pool was mapped. -/
theorem createModel_pools_addr_invariant (addr1 addr2 : Nat) (tm : TestModel) :
    (createModel addr1 tm).pools = (createModel addr2 tm).pools := by
  simp only [createModel]
  have hshift : ∀ i,
      writeConstants TestOperandLifeTime.CONSTANT_REFERENCE addr1
        (tm.operands.zip (computeLocations tm.operands 0 0).1) (fun _ => 0) (addr1 + i) =
      writeConstants TestOperandLifeTime.CONSTANT_REFERENCE addr2
        (tm.operands.zip (computeLocations tm.operands 0 0).1) (fun _ => 0) (addr2 + i) :=
    writeConstants_shift TestOperandLifeTime.CONSTANT_REFERENCE addr1 addr2
      (tm.operands.zip (computeLocations tm.operands 0 0).1)
      (fun _ => 0) (fun _ => 0) (fun _ => rfl)
  simp only [hshift]

/-- C4: model translation is deterministic — the translated model, and in
particular its operand locations, its inline `operandValues` bytes and its
shared-pool bytes, are byte-identical across two runs, whatever addresses
the environment maps the shared pool at. -/
theorem C4_translation_deterministic (addr1 addr2 : Nat) (tm : TestModel) :
    createModel addr1 tm = createModel addr2 tm ∧
    (createModel addr1 tm).operands.map Operand.location =
      (createModel addr2 tm).operands.map Operand.location ∧
    (createModel addr1 tm).operandValues = (createModel addr2 tm).operandValues ∧
    (createModel addr1 tm).pools = (createModel addr2 tm).pools := by
  have hp := createModel_pools_addr_invariant addr1 addr2 tm
  have hm : createModel addr1 tm = createModel addr2 tm := by
    simp only [createModel] at hp ⊢
    rw [hp]
  exact ⟨hm, by rw [hm], by rw [hm], by rw [hm]⟩

theorem constTotal_cons (lt : TestOperandLifeTime) (op : TestOperand) (ops : List TestOperand) :
    constTotal lt (op :: ops) = opWeight lt op + constTotal lt ops := by
  simp [constTotal]

theorem constTotal_take_succ_getD (lt : TestOperandLifeTime) (ops : List TestOperand)
    (k : Nat) (h : k < ops.length) :
    constTotal lt (ops.take (k + 1)) =
      constTotal lt (ops.take k) + opWeight lt (ops.getD k defaultTestOperand) := by
  induction ops generalizing k with
  | nil => simp at h
  | cons op rest ih =>
    cases k with
    | zero => simp [constTotal_cons, constTotal]
    | succ n =>
      simp only [List.take_succ_cons, List.getD_cons_succ, constTotal_cons]
      rw [ih n (by simpa using h)]
      omega

theorem constTotal_take_mono (lt : TestOperandLifeTime) (ops : List TestOperand)
    {k m : Nat} (h : k ≤ m) :
    constTotal lt (ops.take k) ≤ constTotal lt (ops.take m) := by
  induction ops generalizing k m with
  | nil => simp
  | cons op rest ih =>
    cases k with
    | zero => simp [constTotal]
    | succ n =>
      cases m with
      | zero => omega
      | succ p =>
        simp only [List.take_succ_cons, constTotal_cons]
        exact Nat.add_le_add_left (ih (Nat.le_of_succ_le_succ h)) _

theorem constTotal_take_le_total (lt : TestOperandLifeTime) (ops : List TestOperand) (k : Nat) :
    constTotal lt (ops.take k) ≤ constTotal lt ops := by
  induction ops generalizing k with
  | nil => simp
  | cons op rest ih =>
    cases k with
    | zero => simp [constTotal]
    | succ n =>
      simp only [List.take_succ_cons, constTotal_cons]
      exact Nat.add_le_add_left (ih n) _

theorem le_alignedSize (n : Nat) : n ≤ alignedSize n := by
  unfold alignedSize kAlignment
  omega

theorem kAlignment_dvd_alignedSize (n : Nat) : kAlignment ∣ alignedSize n :=
  dvd_mul_left kAlignment ((n + kAlignment - 1) / kAlignment)

theorem kAlignment_dvd_opWeight (lt : TestOperandLifeTime) (op : TestOperand) :
    kAlignment ∣ opWeight lt op := by
  unfold opWeight
  split
  · exact kAlignment_dvd_alignedSize op.data.length
  · exact dvd_zero kAlignment

theorem kAlignment_dvd_constTotal (lt : TestOperandLifeTime) (ops : List TestOperand) :
    kAlignment ∣ constTotal lt ops := by
  induction ops with
  | nil => simp [constTotal]
  | cons op rest ih =>
    rw [constTotal_cons]
    exact dvd_add (kAlignment_dvd_opWeight lt op) ih

theorem kAlignment_dvd_u32 (n : Nat) (h : kAlignment ∣ n) : kAlignment ∣ u32 n := by
  unfold u32
  rw [Nat.dvd_mod_iff (show kAlignment ∣ 2 ^ 32 by norm_num [kAlignment])]
  exact h

/-- Characterization of the translator cursor walk: the location of
operand `i` is the `uint32_t` cast of the start cursor plus the total
aligned size of the earlier operands of the same storage class, with length
the cast byte size; non-constant operands get the zero location. -/
theorem computeLocations_getD (ops : List TestOperand) :
    ∀ cc cr i, i < ops.length →
    (computeLocations ops cc cr).1.getD i ⟨0, 0, 0⟩ =
      (if (ops.getD i defaultTestOperand).lifetime = TestOperandLifeTime.CONSTANT_COPY then
        ⟨0, u32 (cc + constTotal TestOperandLifeTime.CONSTANT_COPY (ops.take i)),
          u32 (ops.getD i defaultTestOperand).data.length⟩
      else if (ops.getD i defaultTestOperand).lifetime =
          TestOperandLifeTime.CONSTANT_REFERENCE then
        ⟨0, u32 (cr + constTotal TestOperandLifeTime.CONSTANT_REFERENCE (ops.take i)),
          u32 (ops.getD i defaultTestOperand).data.length⟩
      else ⟨0, 0, 0⟩) := by
  induction ops with
  | nil =>
    intro cc cr i h
    simp at h
  | cons op rest ih =>
    intro cc cr i h
    unfold computeLocations
    cases i with
    | zero =>
      by_cases h1 : op.lifetime = TestOperandLifeTime.CONSTANT_COPY
      · rw [if_pos h1]
        simp [h1, constTotal]
      · rw [if_neg h1]
        by_cases h2 : op.lifetime = TestOperandLifeTime.CONSTANT_REFERENCE
        · rw [if_pos h2]
          simp [h1, h2, constTotal]
        · rw [if_neg h2]
          simp [h1, h2]
    | succ n =>
      have hn : n < rest.length := by simpa using h
      by_cases h1 : op.lifetime = TestOperandLifeTime.CONSTANT_COPY
      · rw [if_pos h1]
        simp only [List.getD_cons_succ, List.take_succ_cons, constTotal_cons]
        rw [ih (cc + alignedSize op.data.length) cr n hn]
        have hw1 : opWeight TestOperandLifeTime.CONSTANT_COPY op = alignedSize op.data.length := by
          simp [opWeight, h1]
        have hw2 : opWeight TestOperandLifeTime.CONSTANT_REFERENCE op = 0 := by
          simp [opWeight, h1]
        rw [hw1, hw2]
        have ha : cc + alignedSize op.data.length +
            constTotal TestOperandLifeTime.CONSTANT_COPY (rest.take n) =
            cc + (alignedSize op.data.length +
              constTotal TestOperandLifeTime.CONSTANT_COPY (rest.take n)) := by omega
        rw [ha]
        simp
      · rw [if_neg h1]
        by_cases h2 : op.lifetime = TestOperandLifeTime.CONSTANT_REFERENCE
        · rw [if_pos h2]
          simp only [List.getD_cons_succ, List.take_succ_cons, constTotal_cons]
          rw [ih cc (cr + alignedSize op.data.length) n hn]
          have hw1 : opWeight TestOperandLifeTime.CONSTANT_COPY op = 0 := by
            simp [opWeight, h1]
          have hw2 : opWeight TestOperandLifeTime.CONSTANT_REFERENCE op =
              alignedSize op.data.length := by
            simp [opWeight, h2]
          rw [hw1, hw2]
          have ha : cr + alignedSize op.data.length +
              constTotal TestOperandLifeTime.CONSTANT_REFERENCE (rest.take n) =
              cr + (alignedSize op.data.length +
                constTotal TestOperandLifeTime.CONSTANT_REFERENCE (rest.take n)) := by omega
          rw [ha]
          simp
        · rw [if_neg h2]
          simp only [List.getD_cons_succ, List.take_succ_cons, constTotal_cons]
          rw [ih cc cr n hn]
          have hw1 : opWeight TestOperandLifeTime.CONSTANT_COPY op = 0 := by
            simp [opWeight, h1]
          have hw2 : opWeight TestOperandLifeTime.CONSTANT_REFERENCE op = 0 := by
            simp [opWeight, h2]
          rw [hw1, hw2]
          simp

theorem computeLocations_length (ops : List TestOperand) :
    ∀ cc cr, (computeLocations ops cc cr).1.length = ops.length := by
  induction ops with
  | nil => intro cc cr; rfl
  | cons op rest ih =>
    intro cc cr
    unfold computeLocations
    split_ifs <;> simp [ih]

theorem zipWith_mkOperand_location (ops : List TestOperand) :
    ∀ (locs : List DataLocation) (i : Nat), i < ops.length → i < locs.length →
    ((List.zipWith mkOperand ops locs).getD i defaultOperand).location =
      locs.getD i ⟨0, 0, 0⟩ := by
  induction ops with
  | nil =>
    intro locs i h1 h2
    simp at h1
  | cons op rest ih =>
    intro locs i h1 h2
    cases locs with
    | nil => simp at h2
    | cons loc ls =>
      cases i with
      | zero => rfl
      | succ n =>
        simp only [List.zipWith_cons_cons, List.getD_cons_succ]
        exact ih ls n (by simpa using h1) (by simpa using h2)

/-- The location the translated model carries for operand `i` is the one the
cursor walk computed. -/
theorem operandLoc_eq (addr : Nat) (tm : TestModel) (i : Nat) (hi : i < tm.operands.length) :
    operandLoc addr tm i = (computeLocations tm.operands 0 0).1.getD i ⟨0, 0, 0⟩ := by
  unfold operandLoc createModel
  simp only []
  exact zipWith_mkOperand_location tm.operands (computeLocations tm.operands 0 0).1 i hi
    (by rw [computeLocations_length]; exact hi)

/-- For a constant operand, the translated location is the cast prefix
total of its storage class with the cast byte size. -/
theorem operandLoc_const (addr : Nat) (tm : TestModel) (i : Nat)
    (hi : i < tm.operands.length)
    (hconst : isConstantLifetime (tm.operands.getD i defaultTestOperand).lifetime = true) :
    operandLoc addr tm i =
      ⟨0, u32 (constTotal (tm.operands.getD i defaultTestOperand).lifetime
          (tm.operands.take i)),
        u32 (tm.operands.getD i defaultTestOperand).data.length⟩ := by
  rw [operandLoc_eq addr tm i hi, computeLocations_getD tm.operands 0 0 i hi]
  have hcases : (tm.operands.getD i defaultTestOperand).lifetime =
      TestOperandLifeTime.CONSTANT_COPY ∨
      (tm.operands.getD i defaultTestOperand).lifetime =
        TestOperandLifeTime.CONSTANT_REFERENCE := by
    have := hconst
    unfold isConstantLifetime at this
    simpa using this
  rcases hcases with h | h
  · rw [if_pos h, h]
    simp
  · rw [if_neg (by rw [h]; intro hc; exact absurd hc (by decide)), if_pos h, h]
    simp

theorem rangesOverlap_symm {a la b lb : Nat} (h : rangesOverlap a la b lb) :
    rangesOverlap b lb a la := by
  obtain ⟨x, h1, h2⟩ := h
  exact ⟨x, h2, h1⟩

/-- Core disjointness argument for two same-class constant operands at
positions `i < j`, under the no-truncation bound on the class total. -/
theorem no_overlap_aux (lt : TestOperandLifeTime) (ops : List TestOperand) (i j : Nat)
    (hij : i < j) (hj : j < ops.length)
    (hlti : (ops.getD i defaultTestOperand).lifetime = lt)
    (hltj : (ops.getD j defaultTestOperand).lifetime = lt)
    (htot : constTotal lt ops ≤ 2 ^ 32) :
    ¬ rangesOverlap (u32 (constTotal lt (ops.take i)))
        (u32 (ops.getD i defaultTestOperand).data.length)
        (u32 (constTotal lt (ops.take j)))
        (u32 (ops.getD j defaultTestOperand).data.length) := by
  intro hov
  obtain ⟨x, ⟨hx1, hx2⟩, hx3, hx4⟩ := hov
  have hstep : constTotal lt (ops.take i) +
      alignedSize (ops.getD i defaultTestOperand).data.length ≤
      constTotal lt (ops.take j) := by
    have h1 := constTotal_take_succ_getD lt ops i (Nat.lt_trans hij hj)
    have h2 : opWeight lt (ops.getD i defaultTestOperand) =
        alignedSize (ops.getD i defaultTestOperand).data.length := by
      unfold opWeight
      rw [if_pos hlti]
    rw [h2] at h1
    rw [← h1]
    exact constTotal_take_mono lt ops hij
  have htotj : constTotal lt (ops.take j) +
      alignedSize (ops.getD j defaultTestOperand).data.length ≤ constTotal lt ops := by
    have h1 := constTotal_take_succ_getD lt ops j hj
    have h2 : opWeight lt (ops.getD j defaultTestOperand) =
        alignedSize (ops.getD j defaultTestOperand).data.length := by
      unfold opWeight
      rw [if_pos hltj]
    rw [h2] at h1
    rw [← h1]
    exact constTotal_take_le_total lt ops (j + 1)
  have hli := le_alignedSize (ops.getD i defaultTestOperand).data.length
  have hlj := le_alignedSize (ops.getD j defaultTestOperand).data.length
  unfold u32 at hx1 hx2 hx3 hx4
  omega

/-- C5 counterexample: in a model whose constant-copy data exceeds the
`uint32_t` range (operand byte sizes 16, 2^32 - 8 and 8), the translator
truncates the third operand offset to 8, so the byte ranges of the distinct
constant-copy operands 0 and 2 overlap; the claim that ranges of distinct
same-class constant operands never overlap fails as stated. -/
theorem C5_counterexample :
    (overflowModel.operands.getD 0 defaultTestOperand).lifetime =
      TestOperandLifeTime.CONSTANT_COPY ∧
    (overflowModel.operands.getD 2 defaultTestOperand).lifetime =
      TestOperandLifeTime.CONSTANT_COPY ∧
    (0 : Nat) ≠ 2 ∧
    rangesOverlap (operandLoc 0 overflowModel 0).offset (operandLoc 0 overflowModel 0).length
      (operandLoc 0 overflowModel 2).offset (operandLoc 0 overflowModel 2).length := by
  refine ⟨rfl, rfl, by norm_num, ?_⟩
  have h0 : operandLoc 0 overflowModel 0 = ⟨0, 0, 16⟩ := by
    rw [operandLoc_const 0 overflowModel 0 (by simp [overflowModel]) (by decide)]
    rfl
  have h2 : operandLoc 0 overflowModel 2 = ⟨0, 8, 8⟩ := by
    rw [operandLoc_const 0 overflowModel 2 (by simp [overflowModel]) (by decide)]
    have hops : overflowModel.operands = [bigOp 16, bigOp (2 ^ 32 - 8), bigOp 8] := rfl
    have hlt : (overflowModel.operands.getD 2 defaultTestOperand).lifetime =
        TestOperandLifeTime.CONSTANT_COPY := rfl
    rw [hlt, hops]
    simp only [List.take_succ_cons, List.take_zero, List.getD_cons_succ, List.getD_cons_zero]
    rw [constTotal_cons, constTotal_cons]
    have hw : ∀ n, opWeight TestOperandLifeTime.CONSTANT_COPY (bigOp n) = alignedSize n := by
      intro n
      unfold opWeight bigOp
      simp [defaultTestOperand]
    have hd : ∀ n, (bigOp n).data.length = n := by
      intro n
      unfold bigOp
      simp [defaultTestOperand]
    have hnil : constTotal TestOperandLifeTime.CONSTANT_COPY ([] : List TestOperand) = 0 := rfl
    rw [hw, hw, hd, hnil]
    norm_num [alignedSize, kAlignment, u32]
  rw [h0, h2]
  exact ⟨8, by norm_num, by norm_num⟩

/-- C5 (amended): every constant operand offset the translator computes is
a multiple of the alignment boundary; and provided the total aligned
constant size of the storage class fits the `uint32_t` casts (at most
2^32), the byte ranges of distinct constant operands of the same storage
class never overlap. -/
theorem C5_amended_alignment_no_overlap (addr : Nat) (tm : TestModel) (i j : Nat)
    (hi : i < tm.operands.length) (hj : j < tm.operands.length)
    (hconst : isConstantLifetime (tm.operands.getD i defaultTestOperand).lifetime = true) :
    kAlignment ∣ (operandLoc addr tm i).offset ∧
    (i ≠ j →
      (tm.operands.getD j defaultTestOperand).lifetime =
        (tm.operands.getD i defaultTestOperand).lifetime →
      constTotal (tm.operands.getD i defaultTestOperand).lifetime tm.operands ≤ 2 ^ 32 →
      ¬ rangesOverlap (operandLoc addr tm i).offset (operandLoc addr tm i).length
        (operandLoc addr tm j).offset (operandLoc addr tm j).length) := by
  have hloci := operandLoc_const addr tm i hi hconst
  constructor
  · rw [hloci]
    exact kAlignment_dvd_u32 _ (kAlignment_dvd_constTotal _ _)
  · intro hne hsame htot
    have hconstj :
        isConstantLifetime (tm.operands.getD j defaultTestOperand).lifetime = true := by
      rw [hsame]
      exact hconst
    have hlocj := operandLoc_const addr tm j hj hconstj
    rw [hloci, hlocj, hsame]
    rcases Nat.lt_or_ge i j with hij | hge
    · exact no_overlap_aux _ tm.operands i j hij hj rfl hsame htot
    · have hji : j < i := by omega
      intro hov
      exact no_overlap_aux _ tm.operands j i hji hi hsame rfl htot (rangesOverlap_symm hov)

/-- C5 witness: the amended theorem applied to a small in-range model with
two constant-copy operands. -/
theorem C5_witness :
    kAlignment ∣ (operandLoc 0 smallConstModel 0).offset ∧
    ¬ rangesOverlap (operandLoc 0 smallConstModel 0).offset
        (operandLoc 0 smallConstModel 0).length
        (operandLoc 0 smallConstModel 1).offset (operandLoc 0 smallConstModel 1).length :=
  ⟨(C5_amended_alignment_no_overlap 0 smallConstModel 0 1 (by decide) (by decide)
      (by decide)).1,
    (C5_amended_alignment_no_overlap 0 smallConstModel 0 1 (by decide) (by decide)
      (by decide)).2 (by decide) (by decide) (by decide)⟩
